import Mathlib

/-!
Verification of the TCP header decoder (`main.go`).

The decoder exposes a `Packet` holding a raw byte buffer and accessor
methods that compute each TCP header field from it.  Multi-byte fields
are read big-endian; the bit-fields of bytes 12-13 (data offset,
reserved bits, control flags) are extracted in the source by formatting
the byte as a binary *string* (`fmt.Sprintf` with verbs `%b`, `%.1b`,
`%.8b`) and slicing fixed character positions.  `%b` and `%.1b` produce
the minimal binary representation without leading zeros, so those
string slices depend on the magnitude of the byte and panic when the
string is too short; the embedding models every such panic (and every
out-of-range Go slice of the buffer) as `none`.

Bytes are naturals; every read truncates with `% 256` exactly as Go's
`byte` type would.
-/

namespace TCPHeader

/-- The `Packet` struct of the source: a raw header byte buffer. -/
structure Packet where
  Header : List Nat

/-- Binary digits of `n`, most significant first, with explicit fuel so the
recursion is structural.  `fuel = n + 1` always suffices. -/
def binDigitsFuel : Nat → Nat → List Nat
  | 0, _ => []
  | fuel + 1, n => if n < 2 then [n] else binDigitsFuel fuel (n / 2) ++ [n % 2]

/-- Go's `fmt.Sprintf("%b", n)` (and `"%.1b"`, whose minimum width of one
digit never pads): the minimal binary representation of `n`, most
significant digit first, `[0]` for zero.  Digits are the naturals 0 and 1. -/
def binString (n : Nat) : List Nat := binDigitsFuel (n + 1) n

/-- Go's `fmt.Sprintf("%.8b", n)`: binary representation zero-padded on the
left to at least eight digits. -/
def binString8 (n : Nat) : List Nat :=
  List.replicate (8 - (binString n).length) 0 ++ binString n

/-- `strconv.ParseInt(s, 2, k)` applied to a slice of a `%b` string: the value
of a list of binary digits.  In both calls the source makes, the parsed value
(at most 4 digits) fits the requested bit size, so the ignored error and the
range clamp never fire. -/
def parseBin (l : List Nat) : Nat := l.foldl (fun a d => 2 * a + d) 0

/-- Byte `i` of the buffer (`p.Header[i]` after a bounds-checked Go slice);
the `% 256` records that Go bytes are 8-bit.  Callers guard the index range
themselves, as the Go slice expressions do. -/
def byteAt (l : List Nat) (i : Nat) : Nat := l.getD i 0 % 256

/-- The anonymous six-boolean struct returned by `Flags()`. -/
structure ControlFlags where
  SYN : Bool
  ACK : Bool
  RST : Bool
  FIN : Bool
  PSH : Bool
  URG : Bool
deriving DecidableEq, Repr

/-- `binary.BigEndian.Uint16(p.Header[0:2])`; `none` is the Go panic when the
buffer has fewer than 2 bytes. -/
def Packet.SourcePort (p : Packet) : Option Nat :=
  if 2 ≤ p.Header.length then
    some (256 * byteAt p.Header 0 + byteAt p.Header 1)
  else none

/-- `binary.BigEndian.Uint16(p.Header[2:4])`. -/
def Packet.DestinationPort (p : Packet) : Option Nat :=
  if 4 ≤ p.Header.length then
    some (256 * byteAt p.Header 2 + byteAt p.Header 3)
  else none

/-- `binary.BigEndian.Uint32(p.Header[4:8])`. -/
def Packet.SequenceNumber (p : Packet) : Option Nat :=
  if 8 ≤ p.Header.length then
    some (16777216 * byteAt p.Header 4 + 65536 * byteAt p.Header 5 +
      256 * byteAt p.Header 6 + byteAt p.Header 7)
  else none

/-- `binary.BigEndian.Uint32(p.Header[8:12])`. -/
def Packet.AckNumber (p : Packet) : Option Nat :=
  if 12 ≤ p.Header.length then
    some (16777216 * byteAt p.Header 8 + 65536 * byteAt p.Header 9 +
      256 * byteAt p.Header 10 + byteAt p.Header 11)
  else none

/-- `DO()`: formats byte 12 (via the slice `p.Header[12:14]`, which needs 14
buffer bytes) as an unpadded binary string and parses its first four
characters (`do[0:4]`, which needs at least four digits, i.e. byte 12 ≥ 8). -/
def Packet.DO (p : Packet) : Option Nat :=
  if 14 ≤ p.Header.length then
    if 4 ≤ (binString (byteAt p.Header 12)).length then
      some (parseBin ((binString (byteAt p.Header 12)).take 4))
    else none
  else none

/-- `RSV()`: formats byte 12 as an unpadded binary string and parses its
characters 4-6 (`rs[4:7]`, which needs at least seven digits, i.e.
byte 12 ≥ 64). -/
def Packet.RSV (p : Packet) : Option Nat :=
  if 14 ≤ p.Header.length then
    if 7 ≤ (binString (byteAt p.Header 12)).length then
      some (parseBin (((binString (byteAt p.Header 12)).drop 4).take 3))
    else none
  else none

/-- `Flags()`: `fg1` is byte 12 under `%.1b` (no padding, so `fg1[7:8]`
needs byte 12 ≥ 128), `fg2` is byte 13 under `%.8b` (always exactly eight
digits for a byte, so its slices `fg2[0:1]` … `fg2[4:5]` cannot panic).
Each flag is set when the sliced character differs from `"0"`. -/
def Packet.Flags (p : Packet) : Option ControlFlags :=
  if 14 ≤ p.Header.length then
    if 8 ≤ (binString (byteAt p.Header 12)).length then
      some { SYN := (binString (byteAt p.Header 12)).getD 7 0 != 0
             ACK := (binString8 (byteAt p.Header 13)).getD 0 0 != 0
             RST := (binString8 (byteAt p.Header 13)).getD 1 0 != 0
             FIN := (binString8 (byteAt p.Header 13)).getD 2 0 != 0
             PSH := (binString8 (byteAt p.Header 13)).getD 3 0 != 0
             URG := (binString8 (byteAt p.Header 13)).getD 4 0 != 0 }
    else none
  else none

/-- `Window()`: `binary.BigEndian.Uint16(p.Header[14:16])`. -/
def Packet.Window (p : Packet) : Option Nat :=
  if 16 ≤ p.Header.length then
    some (256 * byteAt p.Header 14 + byteAt p.Header 15)
  else none

/-- `Checksum()`: `binary.BigEndian.Uint16(p.Header[16:18])`. -/
def Packet.Checksum (p : Packet) : Option Nat :=
  if 18 ≤ p.Header.length then
    some (256 * byteAt p.Header 16 + byteAt p.Header 17)
  else none

/-- `UrgentPointer()`: `binary.BigEndian.Uint16(p.Header[18:20])`. -/
def Packet.UrgentPointer (p : Packet) : Option Nat :=
  if 20 ≤ p.Header.length then
    some (256 * byteAt p.Header 18 + byteAt p.Header 19)
  else none

/-- The hardcoded sample header of the `main` demonstration entry point. -/
def samplePacket : Packet :=
  ⟨[0xb7, 0x4e, 0x01, 0xbb, 0xb1, 0x46, 0xa4, 0x61, 0x00, 0x00, 0x00, 0x00,
    0xa0, 0x02, 0xfa, 0xf0, 0x9b, 0xba, 0x00, 0x00]⟩

/-- Claim C1 fails as stated: on the sample header the bytes 4-7 are
`b1 46 a4 61`, whose big-endian value is 0xB146A461 = 2974196833, so
`SequenceNumber()` does not return the claimed 2972860513. -/
theorem c1_counterexample :
    samplePacket.SequenceNumber ≠ some 2972860513 := by
  decide

/-- Claim C1 (amended): decoding the 20-byte sample header
`b7 4e 01 bb b1 46 a4 61 00 00 00 00 a0 02 fa f0 9b ba 00 00` yields exactly
SourcePort 46926, DestinationPort 443, SequenceNumber 2974196833
(not the claimed 2972860513), AckNumber 0, DO 10, RSV 0, all six flag
booleans false, Window 64240, Checksum 39866 and UrgentPointer 0. -/
theorem c1_sample_header_decode :
    samplePacket.SourcePort = some 46926 ∧
    samplePacket.DestinationPort = some 443 ∧
    samplePacket.SequenceNumber = some 2974196833 ∧
    samplePacket.AckNumber = some 0 ∧
    samplePacket.DO = some 10 ∧
    samplePacket.RSV = some 0 ∧
    samplePacket.Flags = some ⟨false, false, false, false, false, false⟩ ∧
    samplePacket.Window = some 64240 ∧
    samplePacket.Checksum = some 39866 ∧
    samplePacket.UrgentPointer = some 0 := by
  decide

/-- A 20-byte header that is zero except at offsets 12 and 13: the other
bytes are irrelevant to the bit-field accessors, so this isolates them. -/
def mkPacket1213 (b12 b13 : Nat) : Packet :=
  ⟨[0, 0, 0, 0, 0, 0, 0, 0, 0, 0, 0, 0, b12, b13, 0, 0, 0, 0, 0, 0]⟩

/-- Claim C2 fails on the code: with byte 12 = 0x50 the top nibble is 5,
but `DO()` slices the first four characters of the *unpadded* binary string
`"1010000"` and returns 10; and with byte 12 = 0x07 that string has only
three characters, so `do[0:4]` panics (modelled `none`). -/
theorem c2_do_not_top_nibble :
    byteAt (mkPacket1213 0x50 0).Header 12 / 16 = 5 ∧
    (mkPacket1213 0x50 0).DO = some 10 ∧
    (mkPacket1213 0x07 0).DO = none := by
  decide

/-- Claim C3 fails on the code: with byte 12 = 0x41 = 0100 0001 the bits
4-6 (bit 0 = most significant) are 000 = 0, but `RSV()` slices characters
4-6 of the seven-character unpadded string `"1000001"` and returns 1; and
with byte 12 = 0 the string is `"0"`, so `rs[4:7]` panics (modelled
`none`). -/
theorem c3_rsv_not_bits_4_to_6 :
    (byteAt (mkPacket1213 0x41 0).Header 12 / 2) % 8 = 0 ∧
    (mkPacket1213 0x41 0).RSV = some 1 ∧
    (mkPacket1213 0x00 0).RSV = none := by
  decide

/-- Claim C4 fails on the code: with byte 12 = 0x01 the least significant
bit is 1, but `fg1` is the one-character string `"1"` (`%.1b` does not pad
to eight characters), so `fg1[7:8]` panics and `Flags()` aborts (modelled
`none`) instead of reporting SYN = true. -/
theorem c4_syn_aborts_on_low_byte12 :
    byteAt (mkPacket1213 0x01 0).Header 12 % 2 = 1 ∧
    (mkPacket1213 0x01 0).Flags = none := by
  decide

/-- Claim C5 fails on the code: with byte 13 = 0xF8 the claim demands ACK,
RST, FIN, PSH and URG all true, but when byte 12 < 128 the `fg1[7:8]` slice
panics before byte 13 is ever consulted, so `Flags()` returns nothing at
all (modelled `none`). -/
theorem c5_flags_abort_blocks_byte13 :
    (mkPacket1213 0x00 0xf8).Flags = none := by
  decide

/-- Follows the spec's documented round-trip layout: byte 12 packs
DataOffset in the top nibble, Reserved in bits 4-6 and SYN in the least
significant bit. -/
def packByte12 (dataOffset reserved : Nat) (syn : Bool) : Nat :=
  16 * dataOffset + 2 * reserved + (if syn then 1 else 0)

/-- Follows the spec's documented round-trip layout: byte 13 packs ACK,
RST, FIN, PSH, URG in its top five bits, in that order. -/
def packByte13 (ack rst fin psh urg : Bool) : Nat :=
  128 * (if ack then 1 else 0) + 64 * (if rst then 1 else 0) +
    32 * (if fin then 1 else 0) + 16 * (if psh then 1 else 0) +
    8 * (if urg then 1 else 0)

/-- Claim C6 fails as stated: packing DataOffset 5, Reserved 0 and all six
flags false gives byte 12 = 0x50, and decoding it with `DO()` yields 10,
not the original 5. -/
theorem c6_counterexample :
    (mkPacket1213 (packByte12 5 0 false)
      (packByte13 false false false false false)).DO ≠ some 5 := by
  decide

set_option maxRecDepth 10000 in
/-- For a byte with the high bit set, `%b` yields exactly the eight binary
digits of the byte, most significant first. -/
theorem binString_high :
    ∀ b < 256, 128 ≤ b →
      binString b =
        [1, b / 64 % 2, b / 32 % 2, b / 16 % 2,
         b / 8 % 2, b / 4 % 2, b / 2 % 2, b % 2] := by
  decide

set_option maxRecDepth 10000 in
/-- For any byte, `%.8b` yields exactly the eight binary digits of the byte,
most significant first. -/
theorem binString8_bits :
    ∀ b < 256, binString8 b =
      [b / 128 % 2, b / 64 % 2, b / 32 % 2, b / 16 % 2,
       b / 8 % 2, b / 4 % 2, b / 2 % 2, b % 2] := by
  decide

/-- Claim C6 (amended): the pack/decode round-trip over bytes 12-13 is exact
for every DataOffset in 8-15 (so that byte 12 has a full eight binary
digits), every Reserved in 0-7 and every combination of the six flags. -/
theorem c6_roundtrip (d r : Nat) (syn ack rst fin psh urg : Bool)
    (hd8 : 8 ≤ d) (hd : d < 16) (hr : r < 8) :
    (mkPacket1213 (packByte12 d r syn)
      (packByte13 ack rst fin psh urg)).DO = some d ∧
    (mkPacket1213 (packByte12 d r syn)
      (packByte13 ack rst fin psh urg)).RSV = some r ∧
    (mkPacket1213 (packByte12 d r syn)
      (packByte13 ack rst fin psh urg)).Flags =
        some ⟨syn, ack, rst, fin, psh, urg⟩ := by
  have hsy : (if syn then (1 : Nat) else 0) ≤ 1 := by cases syn <;> simp
  have hak : (if ack then (1 : Nat) else 0) ≤ 1 := by cases ack <;> simp
  have hrs : (if rst then (1 : Nat) else 0) ≤ 1 := by cases rst <;> simp
  have hfi : (if fin then (1 : Nat) else 0) ≤ 1 := by cases fin <;> simp
  have hps : (if psh then (1 : Nat) else 0) ≤ 1 := by cases psh <;> simp
  have hur : (if urg then (1 : Nat) else 0) ≤ 1 := by cases urg <;> simp
  have h12lt : packByte12 d r syn < 256 := by
    simp only [packByte12]; omega
  have h12ge : 128 ≤ packByte12 d r syn := by
    simp only [packByte12]; omega
  have h13lt : packByte13 ack rst fin psh urg < 256 := by
    simp only [packByte13]; omega
  have h12 : byteAt (mkPacket1213 (packByte12 d r syn)
      (packByte13 ack rst fin psh urg)).Header 12 = packByte12 d r syn := by
    show packByte12 d r syn % 256 = packByte12 d r syn
    exact Nat.mod_eq_of_lt h12lt
  have h13 : byteAt (mkPacket1213 (packByte12 d r syn)
      (packByte13 ack rst fin psh urg)).Header 13 =
      packByte13 ack rst fin psh urg := by
    show packByte13 ack rst fin psh urg % 256 = packByte13 ack rst fin psh urg
    exact Nat.mod_eq_of_lt h13lt
  have hbin := binString_high (packByte12 d r syn) h12lt h12ge
  have hbin8 := binString8_bits (packByte13 ack rst fin psh urg) h13lt
  refine ⟨?_, ?_, ?_⟩
  · simp only [Packet.DO, h12, hbin]
    rw [if_pos (by simp [mkPacket1213]), if_pos (by simp)]
    simp only [List.take_succ_cons, List.take_zero, parseBin, List.foldl_cons,
      List.foldl_nil, Option.some.injEq, packByte12]
    omega
  · simp only [Packet.RSV, h12, hbin]
    rw [if_pos (by simp [mkPacket1213]), if_pos (by simp)]
    simp only [List.drop_succ_cons, List.drop_zero, List.take_succ_cons,
      List.take_zero, parseBin, List.foldl_cons, List.foldl_nil,
      Option.some.injEq, packByte12]
    omega
  · simp only [Packet.Flags, h12, h13, hbin, hbin8]
    rw [if_pos (by simp [mkPacket1213]), if_pos (by simp)]
    simp only [List.getD_cons_succ, List.getD_cons_zero, Option.some.injEq,
      ControlFlags.mk.injEq, packByte12, packByte13]
    refine ⟨?_, ?_, ?_, ?_, ?_, ?_⟩ <;>
      cases syn <;> cases ack <;> cases rst <;> cases fin <;>
        cases psh <;> cases urg <;> simp <;> omega

/-- Claim C6 witness: the round-trip at DataOffset 10, Reserved 3,
flags SYN, ACK, FIN, URG set. -/
theorem c6_roundtrip_witness :
    (mkPacket1213 (packByte12 10 3 true)
      (packByte13 true false true false true)).DO = some 10 ∧
    (mkPacket1213 (packByte12 10 3 true)
      (packByte13 true false true false true)).RSV = some 3 ∧
    (mkPacket1213 (packByte12 10 3 true)
      (packByte13 true false true false true)).Flags =
        some ⟨true, true, false, true, false, true⟩ :=
  c6_roundtrip 10 3 true true false true false true
    (by decide) (by decide) (by decide)

/-- Claim C7 fails as stated: on the all-zero 20-byte buffer both `DO()` and
`RSV()` panic on their string slices (byte 12 formats as the one-character
string `"0"`), so neither returns a value at all, let alone one in range. -/
theorem c7_counterexample :
    (mkPacket1213 0 0).DO = none ∧ (mkPacket1213 0 0).RSV = none := by
  decide

set_option maxRecDepth 10000 in
/-- The slices `DO()` and `RSV()` parse from a byte's binary string never
exceed their bit-widths (four and three digits of value at most 1). -/
theorem parseBin_byte_bounds :
    ∀ b < 256, parseBin ((binString b).take 4) ≤ 15 ∧
      parseBin (((binString b).drop 4).take 3) ≤ 7 := by
  decide

/-- Claim C7 (amended): each accessor's range bound holds independently:
whenever `DO()` returns a value it lies in [0,15], and whenever `RSV()`
returns a value it lies in [0,7]; totality fails (`DO()` aborts for
byte 12 < 8 and `RSV()` for byte 12 < 64, see the counterexample). -/
theorem c7_do_rsv_ranges (p : Packet) :
    (∀ v, p.DO = some v → v ≤ 15) ∧ (∀ w, p.RSV = some w → w ≤ 7) := by
  have hb : byteAt p.Header 12 < 256 := Nat.mod_lt _ (by decide)
  have hbounds := parseBin_byte_bounds (byteAt p.Header 12) hb
  constructor
  · intro v hv
    simp only [Packet.DO] at hv
    by_cases h14 : 14 ≤ p.Header.length
    · rw [if_pos h14] at hv
      by_cases h4 : 4 ≤ (binString (byteAt p.Header 12)).length
      · rw [if_pos h4] at hv
        injection hv with h
        exact h ▸ hbounds.1
      · rw [if_neg h4] at hv
        cases hv
    · rw [if_neg h14] at hv
      cases hv
  · intro w hw
    simp only [Packet.RSV] at hw
    by_cases h14 : 14 ≤ p.Header.length
    · rw [if_pos h14] at hw
      by_cases h7 : 7 ≤ (binString (byteAt p.Header 12)).length
      · rw [if_pos h7] at hw
        injection hw with h
        exact h ▸ hbounds.2
      · rw [if_neg h7] at hw
        cases hw
    · rw [if_neg h14] at hw
      cases hw

/-- Claim C7 witness: the DO bound applied to a packet with byte 12 = 0x20,
where `DO()` returns 8 while `RSV()` panics, and the RSV bound applied to
the sample packet, where `RSV()` returns 0. -/
theorem c7_do_rsv_ranges_witness : (8 : Nat) ≤ 15 ∧ (0 : Nat) ≤ 7 :=
  ⟨(c7_do_rsv_ranges (mkPacket1213 0x20 0)).1 8 (by decide),
   (c7_do_rsv_ranges samplePacket).2 0 (by decide)⟩

/-- The spec's "unsigned big-endian interpretation" of a byte sequence. -/
def beNat (l : List Nat) : Nat := l.foldl (fun a b => 256 * a + b) 0

/-- The spec's big-endian field over the byte range `[i, i+n)`. -/
def beSlice (l : List Nat) (i n : Nat) : Nat := beNat ((l.drop i).take n)

/-- A two-byte big-endian slice in terms of the individual bytes. -/
theorem beSlice_two (l : List Nat) (i : Nat) (h : i + 2 ≤ l.length) :
    beSlice l i 2 = 256 * l.getD i 0 + l.getD (i + 1) 0 := by
  induction l generalizing i with
  | nil => simp only [List.length_nil] at h; omega
  | cons a t ih =>
    cases i with
    | zero =>
      rcases t with _ | ⟨b, t2⟩
      · simp only [List.length_cons, List.length_nil] at h; omega
      · show 256 * (256 * 0 + a) + b = 256 * a + b
        ring
    | succ j =>
      have hj : j + 2 ≤ t.length := by
        simp only [List.length_cons] at h; omega
      simpa [beSlice] using ih j hj

/-- A four-byte big-endian slice in terms of the individual bytes. -/
theorem beSlice_four (l : List Nat) (i : Nat) (h : i + 4 ≤ l.length) :
    beSlice l i 4 = 16777216 * l.getD i 0 + 65536 * l.getD (i + 1) 0 +
      256 * l.getD (i + 2) 0 + l.getD (i + 3) 0 := by
  induction l generalizing i with
  | nil => simp only [List.length_nil] at h; omega
  | cons a t ih =>
    cases i with
    | zero =>
      rcases t with _ | ⟨b, t2⟩
      · simp only [List.length_cons, List.length_nil] at h; omega
      rcases t2 with _ | ⟨c, t3⟩
      · simp only [List.length_cons, List.length_nil] at h; omega
      rcases t3 with _ | ⟨e, t4⟩
      · simp only [List.length_cons, List.length_nil] at h; omega
      show 256 * (256 * (256 * (256 * 0 + a) + b) + c) + e =
        16777216 * a + 65536 * b + 256 * c + e
      ring
    | succ j =>
      have hj : j + 4 ≤ t.length := by
        simp only [List.length_cons] at h; omega
      simpa [beSlice] using ih j hj

/-- Claim C8: for every buffer of at least 20 bytes, the two-byte accessors
return the big-endian value of bytes [0,2), [2,4), [14,16), [16,18) and
[18,20), and the four-byte accessors that of bytes [4,8) and [8,12). -/
theorem c8_big_endian_fields (l : List Nat) (h : 20 ≤ l.length)
    (hb : ∀ b ∈ l, b < 256) :
    (Packet.mk l).SourcePort = some (beSlice l 0 2) ∧
    (Packet.mk l).DestinationPort = some (beSlice l 2 2) ∧
    (Packet.mk l).SequenceNumber = some (beSlice l 4 4) ∧
    (Packet.mk l).AckNumber = some (beSlice l 8 4) ∧
    (Packet.mk l).Window = some (beSlice l 14 2) ∧
    (Packet.mk l).Checksum = some (beSlice l 16 2) ∧
    (Packet.mk l).UrgentPointer = some (beSlice l 18 2) := by
  have hB : ∀ i, i < l.length → byteAt l i = l.getD i 0 := by
    intro i hi
    have hlt : l.getD i 0 < 256 := by
      rw [List.getD_eq_getElem l 0 hi]
      exact hb _ (List.getElem_mem hi)
    simpa [byteAt] using Nat.mod_eq_of_lt hlt
  refine ⟨?_, ?_, ?_, ?_, ?_, ?_, ?_⟩
  · rw [beSlice_two l 0 (by omega)]
    simp only [Packet.SourcePort]
    rw [if_pos (show 2 ≤ l.length by omega), hB 0 (by omega), hB 1 (by omega)]
  · rw [beSlice_two l 2 (by omega)]
    simp only [Packet.DestinationPort]
    rw [if_pos (show 4 ≤ l.length by omega), hB 2 (by omega), hB 3 (by omega)]
  · rw [beSlice_four l 4 (by omega)]
    simp only [Packet.SequenceNumber]
    rw [if_pos (show 8 ≤ l.length by omega), hB 4 (by omega), hB 5 (by omega),
      hB 6 (by omega), hB 7 (by omega)]
  · rw [beSlice_four l 8 (by omega)]
    simp only [Packet.AckNumber]
    rw [if_pos (show 12 ≤ l.length by omega), hB 8 (by omega), hB 9 (by omega),
      hB 10 (by omega), hB 11 (by omega)]
  · rw [beSlice_two l 14 (by omega)]
    simp only [Packet.Window]
    rw [if_pos (show 16 ≤ l.length by omega), hB 14 (by omega),
      hB 15 (by omega)]
  · rw [beSlice_two l 16 (by omega)]
    simp only [Packet.Checksum]
    rw [if_pos (show 18 ≤ l.length by omega), hB 16 (by omega),
      hB 17 (by omega)]
  · rw [beSlice_two l 18 (by omega)]
    simp only [Packet.UrgentPointer]
    rw [if_pos (show 20 ≤ l.length by omega), hB 18 (by omega),
      hB 19 (by omega)]

/-- Claim C8 witness: the big-endian field equalities hold on the sample
header. -/
theorem c8_big_endian_fields_witness :
    (Packet.mk samplePacket.Header).SourcePort =
      some (beSlice samplePacket.Header 0 2) ∧
    (Packet.mk samplePacket.Header).DestinationPort =
      some (beSlice samplePacket.Header 2 2) ∧
    (Packet.mk samplePacket.Header).SequenceNumber =
      some (beSlice samplePacket.Header 4 4) ∧
    (Packet.mk samplePacket.Header).AckNumber =
      some (beSlice samplePacket.Header 8 4) ∧
    (Packet.mk samplePacket.Header).Window =
      some (beSlice samplePacket.Header 14 2) ∧
    (Packet.mk samplePacket.Header).Checksum =
      some (beSlice samplePacket.Header 16 2) ∧
    (Packet.mk samplePacket.Header).UrgentPointer =
      some (beSlice samplePacket.Header 18 2) :=
  c8_big_endian_fields samplePacket.Header (by decide) (by decide)

/-- A 19-byte all-zero buffer, one byte short of a full fixed header. -/
def shortPacket : Packet := ⟨List.replicate 19 0⟩

/-- Claim C9 fails on the code: there is no length check and no
BufferTooShort error anywhere.  On a 19-byte buffer the accessors whose
slice fits still succeed (`SourcePort`, even `Checksum`), while
`UrgentPointer()` panics on `p.Header[18:20]` (modelled `none`) instead of
reporting a recoverable error; and even a buffer of exactly 20 bytes does
not decode through every accessor: byte 12 = 0 makes `DO()` panic. -/
theorem c9_no_buffer_too_short_error :
    shortPacket.SourcePort = some 0 ∧
    shortPacket.Checksum = some 0 ∧
    shortPacket.UrgentPointer = none ∧
    Packet.DO ⟨List.replicate 20 0⟩ = none := by
  decide

/-- `getD` inside the prefix of a `take`. -/
theorem getD_take (l : List Nat) (n i : Nat) (hi : i < n) :
    (l.take n).getD i 0 = l.getD i 0 := by
  induction l generalizing n i with
  | nil => simp
  | cons a t ih =>
    cases n with
    | zero => omega
    | succ m =>
      cases i with
      | zero => simp
      | succ j => simpa using ih m j (by omega)

/-- Claim C10: accessors never read past index 19: on any two buffers of at
least 20 bytes agreeing on their first 20 bytes, every accessor agrees. -/
theorem c10_options_region_ignored (l1 l2 : List Nat)
    (h1 : 20 ≤ l1.length) (h2 : 20 ≤ l2.length)
    (hpre : l1.take 20 = l2.take 20) :
    (Packet.mk l1).SourcePort = (Packet.mk l2).SourcePort ∧
    (Packet.mk l1).DestinationPort = (Packet.mk l2).DestinationPort ∧
    (Packet.mk l1).SequenceNumber = (Packet.mk l2).SequenceNumber ∧
    (Packet.mk l1).AckNumber = (Packet.mk l2).AckNumber ∧
    (Packet.mk l1).DO = (Packet.mk l2).DO ∧
    (Packet.mk l1).RSV = (Packet.mk l2).RSV ∧
    (Packet.mk l1).Flags = (Packet.mk l2).Flags ∧
    (Packet.mk l1).Window = (Packet.mk l2).Window ∧
    (Packet.mk l1).Checksum = (Packet.mk l2).Checksum ∧
    (Packet.mk l1).UrgentPointer = (Packet.mk l2).UrgentPointer := by
  have key : ∀ i, i < 20 → l1.getD i 0 = l2.getD i 0 := by
    intro i hi
    rw [← getD_take l1 20 i hi, ← getD_take l2 20 i hi, hpre]
  have hByte : ∀ i, i < 20 → byteAt l1 i = byteAt l2 i := by
    intro i hi
    unfold byteAt
    rw [key i hi]
  refine ⟨?_, ?_, ?_, ?_, ?_, ?_, ?_, ?_, ?_, ?_⟩
  · simp only [Packet.SourcePort]
    rw [hByte 0 (by omega), hByte 1 (by omega),
      if_pos (show 2 ≤ l1.length by omega),
      if_pos (show 2 ≤ l2.length by omega)]
  · simp only [Packet.DestinationPort]
    rw [hByte 2 (by omega), hByte 3 (by omega),
      if_pos (show 4 ≤ l1.length by omega),
      if_pos (show 4 ≤ l2.length by omega)]
  · simp only [Packet.SequenceNumber]
    rw [hByte 4 (by omega), hByte 5 (by omega), hByte 6 (by omega),
      hByte 7 (by omega),
      if_pos (show 8 ≤ l1.length by omega),
      if_pos (show 8 ≤ l2.length by omega)]
  · simp only [Packet.AckNumber]
    rw [hByte 8 (by omega), hByte 9 (by omega), hByte 10 (by omega),
      hByte 11 (by omega),
      if_pos (show 12 ≤ l1.length by omega),
      if_pos (show 12 ≤ l2.length by omega)]
  · simp only [Packet.DO]
    rw [hByte 12 (by omega),
      if_pos (show 14 ≤ l1.length by omega),
      if_pos (show 14 ≤ l2.length by omega)]
  · simp only [Packet.RSV]
    rw [hByte 12 (by omega),
      if_pos (show 14 ≤ l1.length by omega),
      if_pos (show 14 ≤ l2.length by omega)]
  · simp only [Packet.Flags]
    rw [hByte 12 (by omega), hByte 13 (by omega),
      if_pos (show 14 ≤ l1.length by omega),
      if_pos (show 14 ≤ l2.length by omega)]
  · simp only [Packet.Window]
    rw [hByte 14 (by omega), hByte 15 (by omega),
      if_pos (show 16 ≤ l1.length by omega),
      if_pos (show 16 ≤ l2.length by omega)]
  · simp only [Packet.Checksum]
    rw [hByte 16 (by omega), hByte 17 (by omega),
      if_pos (show 18 ≤ l1.length by omega),
      if_pos (show 18 ≤ l2.length by omega)]
  · simp only [Packet.UrgentPointer]
    rw [hByte 18 (by omega), hByte 19 (by omega),
      if_pos (show 20 ≤ l1.length by omega),
      if_pos (show 20 ≤ l2.length by omega)]

/-- Claim C10 witness: appending two extra bytes after the 20-byte header
leaves every accessor of the sample packet unchanged. -/
theorem c10_options_region_ignored_witness :
    (Packet.mk samplePacket.Header).SourcePort =
      (Packet.mk (samplePacket.Header ++ [7, 9])).SourcePort ∧
    (Packet.mk samplePacket.Header).DestinationPort =
      (Packet.mk (samplePacket.Header ++ [7, 9])).DestinationPort ∧
    (Packet.mk samplePacket.Header).SequenceNumber =
      (Packet.mk (samplePacket.Header ++ [7, 9])).SequenceNumber ∧
    (Packet.mk samplePacket.Header).AckNumber =
      (Packet.mk (samplePacket.Header ++ [7, 9])).AckNumber ∧
    (Packet.mk samplePacket.Header).DO =
      (Packet.mk (samplePacket.Header ++ [7, 9])).DO ∧
    (Packet.mk samplePacket.Header).RSV =
      (Packet.mk (samplePacket.Header ++ [7, 9])).RSV ∧
    (Packet.mk samplePacket.Header).Flags =
      (Packet.mk (samplePacket.Header ++ [7, 9])).Flags ∧
    (Packet.mk samplePacket.Header).Window =
      (Packet.mk (samplePacket.Header ++ [7, 9])).Window ∧
    (Packet.mk samplePacket.Header).Checksum =
      (Packet.mk (samplePacket.Header ++ [7, 9])).Checksum ∧
    (Packet.mk samplePacket.Header).UrgentPointer =
      (Packet.mk (samplePacket.Header ++ [7, 9])).UrgentPointer :=
  c10_options_region_ignored samplePacket.Header
    (samplePacket.Header ++ [7, 9]) (by decide) (by decide) (by decide)

end TCPHeader
